import Mathlib

/-!
Verification of the stringshare social-networking backend (`app/server.py`)
against its natural-language specification.

The repository's route layer (`server.py`) is embedded as a declarative
route table plus handler-signature records, transcribed route by route from
the source.  The delegate modules (`methods`, `auth`, `models`, `helper`)
are not part of the source tree; where a claim depends on their behaviour
they are modelled from the specification, with a doc comment saying so.
-/

namespace StringShare

/-- HTTP methods used by the server. -/
inductive Method
  | GET
  | POST
deriving DecidableEq

/-- One route of the FastAPI app, as declared by its decorator in
`server.py`: the HTTP method, the path, the declared success status code
(FastAPI's default 200 when the decorator sets none), and whether the
handler declares the `Depends(auth.get_current_active_user)` dependency. -/
structure Route where
  method : Method
  path : String
  successStatus : Nat
  requiresAuth : Bool
deriving DecidableEq

/-- The complete route table of `server.py` (lines 61-210), in source order.
Transcription notes: `reset_database`, `util` and `login` declare no
`status_code`, so FastAPI's default 200 applies; `get_photo`
(`GET /client/media/`, line 208) declares no auth dependency. -/
def routes : List Route := [
  ⟨.GET,  "/reset_database",   200, false⟩,
  ⟨.GET,  "/util",             200, false⟩,
  ⟨.POST, "/token",            200, false⟩,
  ⟨.GET,  "/server/search",    200, false⟩,
  ⟨.POST, "/server/follow",    201, false⟩,
  ⟨.POST, "/server/post",      201, false⟩,
  ⟨.POST, "/server/comment",   201, false⟩,
  ⟨.POST, "/server/like",      201, false⟩,
  ⟨.POST, "/client/signup",    201, false⟩,
  ⟨.GET,  "/client/me",        200, true⟩,
  ⟨.GET,  "/client/users",     200, true⟩,
  ⟨.GET,  "/client/activity",  200, true⟩,
  ⟨.GET,  "/client/search",    200, true⟩,
  ⟨.POST, "/client/follow",    201, true⟩,
  ⟨.GET,  "/client/followers", 200, true⟩,
  ⟨.GET,  "/client/following", 200, true⟩,
  ⟨.POST, "/client/bio",       201, true⟩,
  ⟨.POST, "/client/avatar",    201, true⟩,
  ⟨.GET,  "/client/posts",     200, true⟩,
  ⟨.GET,  "/client/post",      200, true⟩,
  ⟨.GET,  "/client/likes",     200, true⟩,
  ⟨.GET,  "/client/comments",  200, true⟩,
  ⟨.POST, "/client/post",      201, true⟩,
  ⟨.POST, "/client/comment",   201, true⟩,
  ⟨.POST, "/client/like",      201, true⟩,
  ⟨.GET,  "/client/media/",    200, false⟩]

/-- Whether a path lies under `/client/`. -/
def isClientPath (p : String) : Bool := "/client/".data.isPrefixOf p.data

/-- Whether a path lies under `/server/`. -/
def isServerPath (p : String) : Bool := "/server/".data.isPrefixOf p.data

/-- The `(method, path)` pairs of the client-facing surface actually exposed
by the server: the `/client/*` routes together with `POST /token`. -/
def clientFacingPairs : List (Method × String) :=
  (routes.filter (fun r => isClientPath r.path || r.path == "/token")).map
    (fun r => (r.method, r.path))

/-- The eighteen client-facing routes listed in the specification's route
table (paragraph 6), verbatim.  This definition follows the specification's
words, to be compared with `clientFacingPairs`, which follows the source. -/
def specClientFacingRoutes : List (Method × String) := [
  (.POST, "/client/signup"),
  (.GET,  "/client/me"),
  (.GET,  "/client/users"),
  (.GET,  "/client/search"),
  (.POST, "/client/follow"),
  (.GET,  "/client/followers"),
  (.GET,  "/client/following"),
  (.POST, "/client/bio"),
  (.POST, "/client/avatar"),
  (.GET,  "/client/posts"),
  (.GET,  "/client/post"),
  (.GET,  "/client/likes"),
  (.GET,  "/client/comments"),
  (.POST, "/client/post"),
  (.POST, "/client/comment"),
  (.POST, "/client/like"),
  (.GET,  "/client/media/"),
  (.POST, "/token")]

/-- C2 counterexample: the server exposes `GET /client/activity`
(`get_activity`, `server.py` lines 130-132), a `/client/*` route that is
absent from the specification's route table, so the exposed client-facing
surface is not exactly the spec's eighteen routes. -/
theorem C2_activity_route_not_in_spec :
    (Method.GET, "/client/activity") ∈ clientFacingPairs ∧
    (Method.GET, "/client/activity") ∉ specClientFacingRoutes := by
  decide

/-- C2 (amended): the client-facing HTTP surface consists exactly of the
eighteen routes of the specification's route table plus `GET
/client/activity`: every listed route is exposed with the listed verb, and
the only `/client/*` route not on the list is `GET /client/activity`. -/
theorem C2_route_surface (p : Method × String) :
    p ∈ clientFacingPairs ↔
      (p ∈ specClientFacingRoutes ∨ p = (Method.GET, "/client/activity")) := by
  have hperm : clientFacingPairs.Perm
      (specClientFacingRoutes ++ [(Method.GET, "/client/activity")]) := by
    decide
  rw [hperm.mem_iff]
  simp

/-- Error taxonomy of the specification's paragraph 7: `Unauthorized` (bad
credentials/token), `Forbidden` (inactive user), `NotFound` (missing
user/post), `Conflict` (duplicate username/follow). -/
inductive Err
  | Unauthorized
  | Forbidden
  | NotFound
  | Conflict
deriving DecidableEq

/-- HTTP status code a typed failure is translated to by the route layer. -/
def errStatus : Err → Nat
  | .Unauthorized => 401
  | .Forbidden => 403
  | .NotFound => 404
  | .Conflict => 409

/-- A user record: unique username, password hash, bio, avatar reference,
and an active/inactive flag (the auth component fails with `Forbidden` for
an inactive user). -/
structure UserRec where
  username : String
  password_hash : String
  bio : String
  avatar : String
  disabled : Bool
deriving DecidableEq

/-- A post: id, author, text, latitude/longitude (modelled as integers;
no claim depends on fractional coordinates), photo reference, creation
time (modelled as a natural-number timestamp). -/
structure Post where
  post_id : String
  author : String
  content : String
  latitude : Int
  longitude : Int
  photo : String
  created : Nat
deriving DecidableEq

/-- The relational store: users, follow edges (follower, followee), posts,
issued bearer tokens (token, username), and stored media (reference,
bytes).  New rows are prepended. -/
structure DB where
  users : List UserRec
  follows : List (String × String)
  posts : List Post
  tokens : List (String × String)
  media : List (String × List Nat)
deriving DecidableEq

/-- The empty store. -/
def emptyDB : DB := ⟨[], [], [], [], []⟩

/-- Modelled from the spec: the password-hashing function of the absent
`auth` module, an opaque injective encoding. -/
def hash_password (p : String) : String := "hashed:" ++ p

/-- Modelled from the spec: `auth.get_current_active_user` of the absent
`auth` module resolves a bearer token to a user, fails with `Unauthorized`
if the token is missing, unknown or malformed, and with `Forbidden` if the
resolved user is inactive. -/
def get_current_active_user (db : DB) (token : Option String) :
    Except Err UserRec :=
  match token with
  | none => .error .Unauthorized
  | some t =>
    match db.tokens.find? (fun e => e.1 == t) with
    | none => .error .Unauthorized
    | some e =>
      match db.users.find? (fun u => u.username == e.2) with
      | none => .error .Unauthorized
      | some u => if u.disabled then .error .Forbidden else .ok u

/-- The authentication gate a request passes before its handler runs: the
FastAPI dependency declared on the route.  A route with the
`Depends(auth.get_current_active_user)` dependency resolves the bearer
token first; a route without it admits every request. -/
def handleAuth (db : DB) (r : Route) (token : Option String) :
    Except Err Unit :=
  if r.requiresAuth then (get_current_active_user db token).map (fun _ => ())
  else .ok ()

/-- Modelled from the spec: a fresh token identifier issued by login of the
absent `auth` module. -/
def freshToken (db : DB) : String := "token" ++ toString db.tokens.length

/-- Modelled from the spec: `auth.login` of the absent `auth` module
validates username/password against the store, fails with `Unauthorized`
on mismatch, and otherwise issues a bearer token bound to the user. -/
def login (db : DB) (username password : String) :
    Except Err (String × DB) :=
  match db.users.find? (fun u => u.username == username) with
  | none => .error .Unauthorized
  | some u =>
    if u.password_hash == hash_password password then
      .ok (freshToken db, { db with tokens := (freshToken db, username) :: db.tokens })
    else .error .Unauthorized

/-- C1 counterexample: `GET /client/media/` (`get_photo`, `server.py` lines
208-210) is a `/client/*` route other than signup that declares no auth
dependency, and a request carrying an unknown token passes its
authentication gate instead of being rejected with `Unauthorized`. -/
theorem C1_media_route_unauthenticated :
    (⟨.GET, "/client/media/", 200, false⟩ : Route) ∈ routes ∧
    isClientPath "/client/media/" = true ∧
    "/client/media/" ≠ "/client/signup" ∧
    handleAuth emptyDB ⟨.GET, "/client/media/", 200, false⟩ (some "bogus") =
      .ok () := by
  refine ⟨by decide, by decide, by decide, rfl⟩

/-- C1 (amended): every route under `/client/*` other than `POST
/client/signup` and `GET /client/media/` (and the `POST /token` route)
requires a valid bearer token: such a route declares the auth dependency;
a request with no token or an unknown/malformed token is rejected with
`Unauthorized`; and a request carrying a token issued by login and not yet
invalidated (still present in the token store, resolving to an active
user) is accepted. -/
theorem C1_client_auth_required (r : Route) (hr : r ∈ routes)
    (hc : isClientPath r.path = true)
    (hs : r.path ≠ "/client/signup") (hm : r.path ≠ "/client/media/") :
    r.requiresAuth = true ∧
    (∀ db : DB, handleAuth db r none = .error .Unauthorized) ∧
    (∀ (db : DB) (t : String), db.tokens.find? (fun e => e.1 == t) = none →
      handleAuth db r (some t) = .error .Unauthorized) ∧
    (∀ (db : DB) (t un : String) (u : UserRec),
      db.tokens.find? (fun e => e.1 == t) = some (t, un) →
      db.users.find? (fun v => v.username == un) = some u →
      u.disabled = false →
      handleAuth db r (some t) = .ok ()) ∧
    (∀ (db db' : DB) (un pw t : String),
      login db un pw = .ok (t, db') →
      (∀ u ∈ db.users, u.disabled = false) →
      handleAuth db' r (some t) = .ok ()) := by
  have hauth : r.requiresAuth = true := by
    have hall : routes.all (fun q =>
        !(isClientPath q.path) || q.path == "/client/signup" ||
        q.path == "/client/media/" || q.requiresAuth) = true := by decide
    have := (List.all_eq_true.mp hall) r hr
    simp only [Bool.or_eq_true, Bool.not_eq_true'] at this
    rcases this with ((hno | hsig) | hmed) | hok
    · rw [hc] at hno; cases hno
    · exact absurd (by simpa using hsig) hs
    · exact absurd (by simpa using hmed) hm
    · exact hok
  refine ⟨hauth, ?_, ?_, ?_, ?_⟩
  · intro db
    simp [handleAuth, hauth, get_current_active_user, Except.map]
  · intro db t hfind
    simp [handleAuth, hauth, get_current_active_user, hfind, Except.map]
  · intro db t un u hfind hu hact
    simp [handleAuth, hauth, get_current_active_user, hfind, hu, hact,
      Except.map]
  · intro db db' un pw t hlogin hactive
    unfold login at hlogin
    split at hlogin
    next hfind => cases hlogin
    next u hfind =>
      split at hlogin
      next hpw =>
        injection hlogin with hpair
        injection hpair with ht hdb
        subst hdb
        have hux : u ∈ db.users := List.mem_of_find?_eq_some hfind
        have hun : u.username = un := by
          have := List.find?_some hfind
          simpa using this
        have hud : u.disabled = false := hactive u hux
        simp [handleAuth, hauth, get_current_active_user, ← ht, hfind, hun,
          hud, Except.map, List.find?]
      next hpw => cases hlogin

/-- C1 witness: `GET /client/me` is authenticated; with a concrete store
holding one issued token for an active user, the unknown-token request is
rejected and the issued-token request is accepted. -/
theorem C1_client_auth_required_witness :
    (⟨.GET, "/client/me", 200, true⟩ : Route).requiresAuth = true ∧
    handleAuth
      ⟨[⟨"alice", hash_password "pw", "", "", false⟩], [], [],
        [("token0", "alice")], []⟩
      ⟨.GET, "/client/me", 200, true⟩ (some "nope") =
      .error .Unauthorized ∧
    handleAuth
      ⟨[⟨"alice", hash_password "pw", "", "", false⟩], [], [],
        [("token0", "alice")], []⟩
      ⟨.GET, "/client/me", 200, true⟩ (some "token0") = .ok () := by
  have h := C1_client_auth_required ⟨.GET, "/client/me", 200, true⟩
    (by decide) (by decide) (by decide) (by decide)
  refine ⟨h.1, ?_, ?_⟩
  · exact h.2.2.1 ⟨[⟨"alice", hash_password "pw", "", "", false⟩], [], [],
      [("token0", "alice")], []⟩ "nope" (by rfl)
  · exact h.2.2.2.1 ⟨[⟨"alice", hash_password "pw", "", "", false⟩], [], [],
      [("token0", "alice")], []⟩ "token0" "alice"
      ⟨"alice", hash_password "pw", "", "", false⟩ (by rfl) (by rfl) (by rfl)

/-- Whether a username is present in the user table. -/
def user_exists (db : DB) (username : String) : Bool :=
  db.users.any (fun u => u.username == username)

/-- Modelled from the spec: `methods.get_feed` of the absent `methods`
module aggregates the posts of the users the requester follows and the
requester's own posts, ordered newest-first by creation time. -/
def get_feed (db : DB) (user : String) : List Post :=
  List.insertionSort (fun a b => b.created ≤ a.created)
    (db.posts.filter
      (fun p => p.author == user || db.follows.contains (user, p.author)))

instance : IsTotal Post (fun a b => b.created ≤ a.created) :=
  ⟨fun a b => Nat.le_total b.created a.created⟩

instance : IsTrans Post (fun a b => b.created ≤ a.created) :=
  ⟨fun _ _ _ h1 h2 => Nat.le_trans h2 h1⟩

/-- C3: `get_feed` returns exactly the posts whose author is the requester
or a user the requester follows — the union of followed users' posts and
the requester's own — ordered by creation time descending. -/
theorem C3_get_feed_spec (db : DB) (u : String) :
    List.Sorted (fun a b => b.created ≤ a.created) (get_feed db u) ∧
    ∀ p : Post, p ∈ get_feed db u ↔
      p ∈ db.posts ∧ (p.author = u ∨ (u, p.author) ∈ db.follows) := by
  constructor
  · exact List.sorted_insertionSort _ _
  · intro p
    simp [get_feed, List.mem_insertionSort, List.mem_filter]

/-- Modelled from the spec: `methods.follow_user` of the absent `methods`
module fails with `NotFound` if the target username is absent, with
`Conflict` if the requester already follows the target, and otherwise
creates the follow edge.  (The federation relay for remote targets is a
fire-and-forget side effect outside the store model.) -/
def follow_user (db : DB) (username requester : String) : Except Err DB :=
  if !(user_exists db username) then .error .NotFound
  else if db.follows.contains (requester, username) then .error .Conflict
  else .ok { db with follows := (requester, username) :: db.follows }

/-- Modelled from the spec: `methods.get_following` lists the followees of
the requester, one entry per follow edge out of the requester. -/
def get_following (db : DB) (user : String) : List String :=
  (db.follows.filter (fun e => e.1 == user)).map (fun e => e.2)

/-- C4: `follow_user` fails with `NotFound` when the target does not exist,
fails with `Conflict` when the follow edge already exists, and on success
creates exactly one follow edge, so that a second identical follow yields
`Conflict` and `get_following` afterwards contains exactly one edge to the
target. -/
theorem C4_follow_user_spec (db : DB) (username requester : String) :
    (user_exists db username = false →
      follow_user db username requester = .error .NotFound) ∧
    (user_exists db username = true → (requester, username) ∈ db.follows →
      follow_user db username requester = .error .Conflict) ∧
    (∀ db' : DB, follow_user db username requester = .ok db' →
      db'.follows = (requester, username) :: db.follows ∧
      follow_user db' username requester = .error .Conflict ∧
      (get_following db' requester).count username = 1) := by
  refine ⟨?_, ?_, ?_⟩
  · intro h
    simp [follow_user, h]
  · intro hex hmem
    simp [follow_user, hex, hmem]
  · intro db' hok
    unfold follow_user at hok
    split at hok
    next => cases hok
    next hex =>
      split at hok
      next => cases hok
      next hcon =>
        injection hok with hdb
        subst hdb
        have hnotmem : (requester, username) ∉ db.follows := by
          simpa using hcon
        have hexists : user_exists db username = true := by
          cases h : user_exists db username with
          | true => rfl
          | false => rw [h] at hex; cases hex rfl
        refine ⟨rfl, ?_, ?_⟩
        · have huser : user_exists
              { db with follows := (requester, username) :: db.follows }
              username = true := hexists
          have hcont : ((requester, username) :: db.follows).contains
              (requester, username) = true := by simp
          simp [follow_user, huser, hcont]
        · have htail : ((db.follows.filter
              (fun e => e.1 == requester)).map (fun e => e.2)).count
                username = 0 := by
            rw [List.count_eq_zero]
            intro hmem
            rcases List.mem_map.mp hmem with ⟨e, he, he2⟩
            rcases List.mem_filter.mp he with ⟨hein, he1⟩
            apply hnotmem
            have : e = (requester, username) := by
              cases e with
              | mk a b =>
                simp at he1 he2
                simp [he1, he2]
            rwa [this] at hein
          simp [get_following, List.filter, List.count_cons, htail]

/-- C4 witness: on a concrete store, following a missing user yields
`NotFound`, re-following yields `Conflict`, and a fresh follow creates
exactly one edge that `get_following` reports once. -/
theorem C4_follow_user_witness :
    follow_user emptyDB "bob" "alice" = .error .NotFound ∧
    follow_user ⟨[⟨"bob", "h", "", "", false⟩], [("alice", "bob")], [], [], []⟩
      "bob" "alice" = .error .Conflict ∧
    ((⟨[⟨"bob", "h", "", "", false⟩], [("alice", "bob")], [], [], []⟩ :
        DB).follows = ("alice", "bob") :: [] ∧
      follow_user
        (⟨[⟨"bob", "h", "", "", false⟩], [("alice", "bob")], [], [], []⟩ : DB)
        "bob" "alice" = .error .Conflict ∧
      (get_following
        (⟨[⟨"bob", "h", "", "", false⟩], [("alice", "bob")], [], [], []⟩ : DB)
        "alice").count "bob" = 1) := by
  refine ⟨?_, ?_, ?_⟩
  · exact (C4_follow_user_spec emptyDB "bob" "alice").1 (by decide)
  · exact (C4_follow_user_spec
      ⟨[⟨"bob", "h", "", "", false⟩], [("alice", "bob")], [], [], []⟩
      "bob" "alice").2.1 (by decide) (by decide)
  · exact (C4_follow_user_spec
      ⟨[⟨"bob", "h", "", "", false⟩], [], [], [], []⟩
      "bob" "alice").2.2 _ (by rfl)

/-- Signup payload: username and password. -/
structure UserIn where
  username : String
  password : String
deriving DecidableEq

/-- Modelled from the spec: `methods.create_user` of the absent `methods`
module fails with `Conflict` if the username already exists, and otherwise
stores the new user with the hashed password. -/
def create_user (db : DB) (user : UserIn) : Except Err DB :=
  if user_exists db user.username then .error .Conflict
  else .ok { db with users :=
    ⟨user.username, hash_password user.password, "", "", false⟩ :: db.users }

/-- C5: `create_user` fails with `Conflict` exactly when the requested
username already exists; with a new username it succeeds, and a subsequent
login with the same username and password succeeds and returns a token. -/
theorem C5_create_user_login (db : DB) (u : UserIn) :
    (create_user db u = .error .Conflict ↔
      user_exists db u.username = true) ∧
    (user_exists db u.username = false →
      ∃ db' : DB, create_user db u = .ok db' ∧
        ∃ (t : String) (db'' : DB),
          login db' u.username u.password = .ok (t, db'')) := by
  constructor
  · constructor
    · intro h
      cases hex : user_exists db u.username with
      | true => rfl
      | false => simp [create_user, hex] at h
    · intro hex
      simp [create_user, hex]
  · intro hex
    refine ⟨{ db with users :=
        ⟨u.username, hash_password u.password, "", "", false⟩ :: db.users },
      by simp [create_user, hex], ?_⟩
    apply Exists.intro
    apply Exists.intro
    simp [login, List.find?]
    exact ⟨rfl, rfl⟩

/-- C5 witness: on the empty store, signup of a fresh user succeeds and a
subsequent login with the same credentials returns a token. -/
theorem C5_create_user_login_witness :
    ∃ db' : DB, create_user emptyDB ⟨"alice", "pw"⟩ = .ok db' ∧
      ∃ (t : String) (db'' : DB), login db' "alice" "pw" = .ok (t, db'') :=
  (C5_create_user_login emptyDB ⟨"alice", "pw"⟩).2 (by decide)

/-- The resource-creating client POST paths named by the specification's
status-code rule. -/
def creatingPostPaths : List String :=
  ["/client/signup", "/client/follow", "/client/bio", "/client/avatar",
   "/client/post", "/client/comment", "/client/like"]

/-- C6: every route's declared success status is 200 or 201; every GET
route declares 200; every resource-creating POST route (the listed client
POSTs and every `/server/*` POST) declares 201; and the route layer maps
the four typed failures to 401, 403, 404 and 409. -/
theorem C6_status_codes :
    (∀ r ∈ routes,
      (r.successStatus = 200 ∨ r.successStatus = 201) ∧
      (r.method = .GET → r.successStatus = 200) ∧
      (r.method = .POST →
        (r.path ∈ creatingPostPaths ∨ isServerPath r.path = true) →
        r.successStatus = 201)) ∧
    (∀ e : Err, errStatus e = 401 ∨ errStatus e = 403 ∨
      errStatus e = 404 ∨ errStatus e = 409) := by
  constructor
  · decide
  · intro e
    cases e <;> simp [errStatus]

/-- C6 witness: a concrete GET route declares 200, a concrete creating
POST route declares 201, and a concrete failure maps into the 4xx set. -/
theorem C6_status_codes_witness :
    (⟨.GET, "/client/me", 200, true⟩ : Route).successStatus = 200 ∧
    (⟨.POST, "/client/follow", 201, true⟩ : Route).successStatus = 201 ∧
    (errStatus .NotFound = 401 ∨ errStatus .NotFound = 403 ∨
      errStatus .NotFound = 404 ∨ errStatus .NotFound = 409) := by
  refine ⟨?_, ?_, ?_⟩
  · exact (C6_status_codes.1 ⟨.GET, "/client/me", 200, true⟩
      (by decide)).2.1 rfl
  · exact (C6_status_codes.1 ⟨.POST, "/client/follow", 201, true⟩
      (by decide)).2.2 rfl (Or.inl (by decide))
  · exact C6_status_codes.2 .NotFound

/-- Where FastAPI reads a handler parameter from: the request body (a
Pydantic model or an `UploadFile`) or the URL query string (a bare scalar
parameter). -/
inductive ParamLoc
  | body
  | query
deriving DecidableEq

/-- One handler parameter and where it is read from. -/
structure ParamSpec where
  name : String
  loc : ParamLoc
deriving DecidableEq

/-- The signature of a handler function: method, path, the non-dependency
parameters with their locations, whether the
`Depends(auth.get_current_active_user)` dependency is declared, and which
parameter (if any) carries the acting user. -/
structure HandlerSig where
  method : Method
  path : String
  params : List ParamSpec
  authDependency : Bool
  actingUserParam : Option String
deriving DecidableEq

/-- The five `/server/*` handler signatures of `server.py` (lines 81-110),
in source order.  The acting user arrives as the `ServerSearchUser` /
`ServerFollowUser` / `ServerComment` / `ServerLike` body (whose user
field names the actor, and which the handler forwards to the domain
method), or as the bare `username` parameter of `server_create_post`. -/
def serverHandlers : List HandlerSig := [
  ⟨.GET, "/server/search", [⟨"search_user", .body⟩], false,
    some "search_user"⟩,
  ⟨.POST, "/server/follow", [⟨"users", .body⟩], false, some "users"⟩,
  ⟨.POST, "/server/post",
    [⟨"post_id", .query⟩, ⟨"post", .query⟩, ⟨"latitude", .query⟩,
     ⟨"longitude", .query⟩, ⟨"username", .query⟩, ⟨"photo", .body⟩],
    false, some "username"⟩,
  ⟨.POST, "/server/comment", [⟨"comment", .body⟩], false, some "comment"⟩,
  ⟨.POST, "/server/like", [⟨"like", .body⟩], false, some "like"⟩]

/-- C7: no `/server/*` route declares the token-authentication dependency,
and every `/server/*` handler takes its acting user from an explicit
request parameter. -/
theorem C7_server_acting_user :
    (∀ r ∈ routes, isServerPath r.path = true → r.requiresAuth = false) ∧
    (∀ h ∈ serverHandlers, h.authDependency = false ∧
      ∃ p ∈ h.params, h.actingUserParam = some p.name) := by
  constructor
  · decide
  · decide

/-- C7 witness: the `/server/follow` route is unauthenticated and its
handler names its acting-user parameter among its request parameters. -/
theorem C7_server_acting_user_witness :
    (⟨.POST, "/server/follow", 201, false⟩ : Route).requiresAuth = false ∧
    ((⟨.POST, "/server/follow", [⟨"users", .body⟩], false,
        some "users"⟩ : HandlerSig).authDependency = false ∧
      ∃ p ∈ (⟨.POST, "/server/follow", [⟨"users", .body⟩], false,
        some "users"⟩ : HandlerSig).params,
        (⟨.POST, "/server/follow", [⟨"users", .body⟩], false,
          some "users"⟩ : HandlerSig).actingUserParam = some p.name) := by
  refine ⟨?_, ?_⟩
  · exact C7_server_acting_user.1 ⟨.POST, "/server/follow", 201, false⟩
      (by decide) (by decide)
  · exact C7_server_acting_user.2
      ⟨.POST, "/server/follow", [⟨"users", .body⟩], false, some "users"⟩
      (by decide)

/-- Modelled from the spec: `methods.update_avatar` of the absent `methods`
module stores the uploaded bytes at a media location, records the
reference on the user's record, and yields the reference. -/
def update_avatar (db : DB) (user : String) (file : List Nat) :
    String × DB :=
  let url := "media" ++ toString db.media.length
  (url,
    { db with
      media := (url, file) :: db.media,
      users := db.users.map (fun v =>
        if v.username == user then { v with avatar := url } else v) })

/-- Modelled from the spec: `methods.get_photo` of the absent `methods`
module resolves a stored media reference to its bytes. -/
def get_photo (db : DB) (url : String) : Option (List Nat) :=
  (db.media.find? (fun e => e.1 == url)).map (fun e => e.2)

/-- C8: for every user and uploaded byte sequence, fetching `get_photo`
with the reference yielded by `update_avatar` returns exactly the bytes
uploaded. -/
theorem C8_avatar_roundtrip (db : DB) (user : String) (file : List Nat) :
    get_photo (update_avatar db user file).2 (update_avatar db user file).1 =
      some file := by
  simp [update_avatar, get_photo, List.find?]

/-- Modelled from the spec: `helper.reset_database` of the absent `helper`
module wipes the store. -/
def reset_database (_db : DB) : DB := emptyDB

/-- The `GET /reset_database` route as declared at `server.py` line 61. -/
def resetRoute : Route := ⟨.GET, "/reset_database", 200, false⟩

/-- The `reset_database` handler behind its authentication gate: the
request passes `handleAuth` for its route (which, the route declaring no
dependency, admits every caller) and then unconditionally invokes
`helper.reset_database`. -/
def handle_reset (db : DB) (token : Option String) : Except Err DB :=
  (handleAuth db resetRoute token).map (fun _ => reset_database db)

/-- C9: `GET /reset_database` is exposed, declares no authentication
dependency, and for every store and every caller — with or without a
token — the handler unconditionally wipes the store. -/
theorem C9_reset_database_open :
    resetRoute ∈ routes ∧ resetRoute.requiresAuth = false ∧
    ∀ (db : DB) (token : Option String),
      handle_reset db token = .ok emptyDB := by
  exact ⟨by decide, rfl, fun db token => rfl⟩

/-- Request body of `GET /server/search`: the search query together with
the acting remote user's identity (modelled from the spec; `server.py`
reads the `search_query` field and forwards the whole body as the
requester). -/
structure ServerSearchUser where
  search_query : String
  username : String
deriving DecidableEq

/-- Modelled from the spec: `methods.search_users` of the absent `methods`
module matches the query as a prefix over stored usernames. -/
def search_users (db : DB) (query : String) : List String :=
  (db.users.map (fun u => u.username)).filter
    (fun n => query.data.isPrefixOf n.data)

/-- The `GET /server/search` handler (`server.py` lines 81-83): FastAPI
reads the `ServerSearchUser` model parameter from the request body, and
the handler passes its `search_query` field to `methods.search_users`. -/
def server_search_handler (db : DB) (search_user : ServerSearchUser) :
    List String :=
  search_users db search_user.search_query

/-- C10: the server's only `/server/search` route is a GET; its handler's
single parameter is the `ServerSearchUser` request body (no URL query
parameter), and the query passed to `search_users` is that body's
`search_query` field. -/
theorem C10_server_search_body_params :
    (routes.filter (fun r => r.path == "/server/search")) =
      [⟨.GET, "/server/search", 200, false⟩] ∧
    (serverHandlers.filter (fun h => h.path == "/server/search")) =
      [⟨.GET, "/server/search", [⟨"search_user", .body⟩], false,
        some "search_user"⟩] ∧
    ∀ (db : DB) (b : ServerSearchUser),
      server_search_handler db b = search_users db b.search_query := by
  refine ⟨by decide, by decide, fun db b => rfl⟩

end StringShare
